import Mathlib

/-!
Shallow embedding of the Dell-Assistant support chatbot control loop
(`src/chatbot_backend`): the session state machine built in `graph.py`,
the agent nodes under `agents/`, and the PDF fallback miner, together with
proofs of the spec claims about them.

External effects are made explicit: each oracle (LLM) call site receives
its oracle outcome as an input, the RAG search backend's response and the
on-disk PDF store are environment parameters, and the CSV log / ticket
writers are modelled as append-only lists carried in the session state.
-/

set_option maxHeartbeats 1000000

namespace DellAssistant

/-! ## Oracle adapter (shared retry pattern)

Every agent node (`information_gatherer.py`, `rag_retriever.py`,
`quality_checker.py`, `answer_formulator.py`, `feedback_collector.py`,
`clarification_assessor.py`, `pdf_fallback.py`) contains the identical
retry loop:

    for attempt in range(MAX_RETRIES):
        try: response = structured_llm.invoke(messages); break
        except (APIConnectionError, APITimeoutError, RateLimitError):
            if attempt < MAX_RETRIES - 1: time.sleep(RETRY_DELAYS[attempt])
            else: give up
        except Exception: break

`retryFrom` models this loop: `f n` is the outcome of the n-th invocation
attempt (0-indexed), and the result is the returned value (`none` when the
loop finishes with `response is None`, in which case every caller applies
its deterministic fallback) paired with the list of sleep delays performed.
-/

inductive AttemptResult (α : Type) where
  | success (v : α)
  | transient
  | fatal
deriving DecidableEq

/-- `MAX_RETRIES = 3` in every agent module. -/
def MAX_RETRIES : Nat := 3

/-- `RETRY_DELAYS = [1, 2, 4]` in every agent module. -/
def RETRY_DELAYS : List Nat := [1, 2, 4]

/-- The shared retry loop, starting at attempt index `attempt`. -/
def retryFrom {α : Type} (f : Nat → AttemptResult α) (attempt : Nat) :
    Option α × List Nat :=
  if _h : attempt < MAX_RETRIES then
    match f attempt with
    | .success v => (some v, [])
    | .fatal => (none, [])
    | .transient =>
      if attempt < MAX_RETRIES - 1 then
        let r := retryFrom f (attempt + 1)
        (r.1, RETRY_DELAYS.getD attempt 0 :: r.2)
      else (none, [])
  else (none, [])
termination_by MAX_RETRIES - attempt
decreasing_by simp_wf; omega

/-- An oracle call as seen by a node: either the structured response or
`none`-exhaustion (the caller then takes its deterministic fallback branch). -/
inductive OracleOutcome (α : Type) where
  | ok (v : α)
  | failed
deriving DecidableEq

/-- The outcome a node observes after the retry loop finishes. -/
def oracleOf {α : Type} (f : Nat → AttemptResult α) : OracleOutcome α :=
  match (retryFrom f 0).1 with
  | some v => .ok v
  | none => .failed

/-! ## Structured oracle response schemas (`schemas.py`) -/

/-- `InformationGathererResponse`. -/
structure InformationGathererResponse where
  has_enough_info : Bool
  follow_up_question : String
  reasoning : String
  classified_question : String
deriving DecidableEq

/-- `ContextSufficiencyAssessment`. -/
structure ContextSufficiencyAssessment where
  is_sufficient : Bool
  information_gap : String
  reasoning : String
deriving DecidableEq

/-- `FormulatedAnswer`. -/
structure FormulatedAnswer where
  answer : String
  confidence : String
  sources_used : String
deriving DecidableEq

/-- `UserFeedback`. -/
structure UserFeedback where
  is_satisfied : Bool
  is_uncertain : Bool
deriving DecidableEq

/-- `ClarificationAssessment`. -/
structure ClarificationAssessment where
  is_actionable : Bool
  information_gap : String
  reasoning : String
deriving DecidableEq

/-- `TOCAnalysis`. `relevant_pages` are 1-indexed page numbers (Python
`list[int]`, hence `Int`). -/
structure TOCAnalysis where
  has_toc : Bool
  relevant_pages : List Int
  most_relevant_section_title : String
  reasoning : String
deriving DecidableEq

/-- One `rag_history` entry: `{"query": str, "context": str, "urls": list[str]}`
(see `state.py` and `rag_retriever.py`). -/
structure RagEntry where
  query : String
  context : String
  urls : List String
deriving DecidableEq

/-! ## PDF fallback miner (`agents/pdf_fallback.py`) -/

/-- A character Python `str.strip()` removes (the `string.whitespace` set). -/
def pyIsSpace (c : Char) : Bool :=
  c = ' ' || c = '\t' || c = '\n' || c = '\r' || c = '\x0b' || c = '\x0c'

/-- Python `s.strip()`. -/
def pyStrip (s : String) : String :=
  ⟨((s.data.dropWhile pyIsSpace).reverse.dropWhile pyIsSpace).reverse⟩

/-- Python `s.lower()` (ASCII case folding suffices for the URL suffix test). -/
def pyLower (s : String) : String := ⟨s.data.map Char.toLower⟩

/-- Python `s.endswith(suffix)`. -/
def strEndsWith (s suffix : String) : Bool := suffix.data.isSuffixOf s.data

/-- Python falsiness of `s.strip()`: the string is empty or all whitespace. -/
def isBlank (s : String) : Bool := s.data.all pyIsSpace

/-- The flattened multiset of PDF locators the `Counter` in
`_get_most_frequent_pdf_url` counts: every `url` of every history entry
whose lowercase form ends in `".pdf"`, in history order. -/
def pdfUrls (rag_history : List RagEntry) : List String :=
  (rag_history.map RagEntry.urls).flatten.filter
    (fun u => strEndsWith (pyLower u) ".pdf")

/-- The number of occurrences of `u` in `l` (the `Counter` count). -/
def countOcc (l : List String) (u : String) : Nat :=
  (l.filter (fun v => decide (v = u))).length

/-- The 0-based position of the first occurrence of `u` in `l` (length of `l`
when `u` does not occur). -/
def firstIdx : List String → String → Nat
  | [], _ => 0
  | x :: xs, u => if x = u then 0 else firstIdx xs u + 1

/-- The keys of a Python `Counter` built over `l`, in insertion order
(first-occurrence order). -/
def keysInOrder (l : List String) : List String :=
  l.foldl (fun acc u => if u ∈ acc then acc else acc ++ [u]) []

/-- `heapq.nlargest(1, ...)` over the counter items: keep the current best
key, replacing it only on a strictly greater count (stability: the
first-inserted key among equal counts wins). -/
def pickMostCommon (cnt : String → Nat) (best : String) : List String → String
  | [] => best
  | u :: ks => pickMostCommon cnt (if cnt u > cnt best then u else best) ks

/-- `_get_most_frequent_pdf_url`: count PDF URL occurrences across all
`rag_history` entries and return `most_common(1)`, i.e. the key with the
highest count, first-inserted key winning ties (CPython `Counter` iterates
keys in insertion order and `heapq.nlargest` is stable, so among equal
counts the earliest-inserted key is returned). -/
def get_most_frequent_pdf_url (rag_history : List RagEntry) : Option String :=
  let urls := pdfUrls rag_history
  match keysInOrder urls with
  | [] => none
  | k :: ks => some (pickMostCommon (countOcc urls) k ks)

/-- The per-page parts built by `_extract_pages_text`: for each requested
1-indexed page number, skip it when out of range (`0 <= idx < total` fails)
or when its text is whitespace-only, else emit the annotated page text. -/
def pageTextAt (pdf : List String) (page_num : Int) : String :=
  pdf.getD (page_num - 1).toNat ""

def extractParts (pdf : List String) (page_numbers : List Int) : List String :=
  page_numbers.filterMap (fun page_num =>
    let idx := page_num - 1
    if 0 ≤ idx ∧ idx < (pdf.length : Int) then
      let page_text := pageTextAt pdf page_num
      if isBlank page_text then none
      else some ("--- Page " ++ toString page_num ++ " ---\n" ++ page_text)
    else none)

/-- `_extract_pages_text`: a PDF is modelled by its list of page texts. -/
def extract_pages_text (pdf : List String) (page_numbers : List Int) : String :=
  String.intercalate "\n\n" (extractParts pdf page_numbers)

/-- The requested pages that actually contribute text to
`extract_pages_text` (in range and not whitespace-only). -/
def extractedPages (pdf : List String) (page_numbers : List Int) : List Int :=
  page_numbers.filter (fun page_num =>
    decide (0 ≤ page_num - 1 ∧ page_num - 1 < (pdf.length : Int) ∧
      isBlank (pageTextAt pdf page_num) = false))

/-- Python `list(range(1, n + 1))` as 1-indexed page numbers. -/
def pageRange (n : Nat) : List Int :=
  (List.range n).map (fun i => (i : Int) + 1)

/-- `PDF_TOC_PAGE_THRESHOLD = 10` (`config.py`). -/
def PDF_TOC_PAGE_THRESHOLD : Nat := 10

/-- The small-document fallback answer template of `pdf_fallback_node`. -/
def smallPdfAnswer (pdf_url : String) (page_count : Nat) (extracted_text : String) :
    String :=
  "We could not find an exact answer to your query after multiple " ++
  "search attempts, but the following document may contain useful " ++
  "information.\n\n" ++
  "Source: " ++ pdf_url ++ "\n" ++
  "Pages: all (" ++ toString page_count ++ " pages)\n\n" ++
  extracted_text

/-- The large-document fallback answer template of `pdf_fallback_node`
(section note present only when the title is non-empty). -/
def largePdfAnswer (pdf_url : String) (toc_analysis : TOCAnalysis)
    (extracted_text : String) : String :=
  let section_note :=
    if toc_analysis.most_relevant_section_title ≠ "" then
      "Relevant section: " ++ toc_analysis.most_relevant_section_title ++ "\n"
    else ""
  let pages_str :=
    String.intercalate ", " (toc_analysis.relevant_pages.map (fun p => toString p))
  "We could not find an exact answer to your query after multiple " ++
  "search attempts, but the following section from a related document " ++
  "may contain useful information.\n\n" ++
  "Source: " ++ pdf_url ++ "\n" ++
  section_note ++
  "Pages: " ++ pages_str ++ "\n\n" ++
  extracted_text

/-! ## Session state, logging records and stages (`state.py`, `logging_/`, `graph.py`) -/

/-- A `support_log.csv` row (`write_support_log`, minus the wall-clock
timestamp, which carries no control-flow information). -/
structure LogRow where
  chat_id : String
  product : String
  question : String
  status : String
  escalated : Bool
  gatherer_attempts : Nat
  retrieval_attempts : Nat
  user_satisfied : Bool
  feedback_uncertain : Bool
  feedback_collected : Bool
deriving DecidableEq

/-- A `tickets.csv` row (`write_ticket`, minus the timestamp). -/
structure Ticket where
  chat_id : String
  product : String
  question : String
  answer_given : String
  escalated : Bool
  description : String
deriving DecidableEq

/-- `AgentState` (`state.py`) threaded through the graph, together with the
append-only log and ticket files as observable outputs. The `messages`
transcript is omitted: no routing function or logged field reads it (its
only consumers are the oracle prompts, which are abstracted as inputs). -/
structure SessState where
  chat_id : String
  product_name : String
  classified_question : String
  gatherer_attempts : Nat
  has_enough_info : Bool
  rag_history : List RagEntry
  retrieval_attempts : Nat
  is_context_sufficient : Bool
  information_gap : String
  final_answer : String
  escalated_to_human : Bool
  pdf_fallback_used : Bool
  user_satisfied : Bool
  feedback_collected : Bool
  clarification_used : Bool
  user_clarification : String
  clarification_is_actionable : Bool
  feedback_uncertain : Bool
  logs : List LogRow
  tickets : List Ticket
deriving DecidableEq

/-- The state right after `product_selector_node`: the product slug is set
and every other field still holds its `state.get(..., default)` default. -/
def initState (chat_id product_name : String) : SessState :=
  { chat_id := chat_id, product_name := product_name, classified_question := "",
    gatherer_attempts := 0, has_enough_info := false, rag_history := [],
    retrieval_attempts := 0, is_context_sufficient := false, information_gap := "",
    final_answer := "", escalated_to_human := false, pdf_fallback_used := false,
    user_satisfied := false, feedback_collected := false, clarification_used := false,
    user_clarification := "", clarification_is_actionable := false,
    feedback_uncertain := false, logs := [], tickets := [] }

/-- The graph nodes of `build_graph` reachable after `product_selector`,
plus `done` for `END`. -/
inductive Stage where
  | information_gatherer
  | ask_user_for_details
  | rag_retriever
  | quality_checker
  | answer_formulator
  | present_answer
  | ask_for_clarification
  | clarification_assessor
  | pdf_fallback
  | present_fallback_answer
  | escalate
  | log_pre_feedback
  | collect_feedback
  | log_result
  | done
deriving DecidableEq

/-- `MAX_GATHERER_ATTEMPTS = 3` (`config.py`). -/
def MAX_GATHERER_ATTEMPTS : Nat := 3

/-- `MAX_RETRIEVAL_ATTEMPTS = 3` (`config.py`). -/
def MAX_RETRIEVAL_ATTEMPTS : Nat := 3

/-! ## Node functions (state updates) -/

/-- `information_gatherer_node` (`agents/information_gatherer.py`): on oracle
exhaustion or an insufficient verdict, record `has_enough_info = False` and
increment `gatherer_attempts`; on a sufficient verdict record the classified
question. -/
def information_gatherer_node (s : SessState)
    (o : OracleOutcome InformationGathererResponse) : SessState :=
  match o with
  | .failed =>
    { s with has_enough_info := false, gatherer_attempts := s.gatherer_attempts + 1 }
  | .ok r =>
    if r.has_enough_info then
      { s with has_enough_info := true, classified_question := r.classified_question }
    else
      { s with has_enough_info := false, gatherer_attempts := s.gatherer_attempts + 1 }

/-- `route_after_gatherer` (`graph.py`). -/
def route_after_gatherer (s : SessState) : Stage :=
  if s.has_enough_info then .rag_retriever
  else if s.gatherer_attempts ≥ MAX_GATHERER_ATTEMPTS then .rag_retriever
  else .ask_user_for_details

/-- `rag_retriever_node` (`agents/rag_retriever.py`): on oracle exhaustion the
fallback query `f"{product_name} {classified_question}"` is searched instead;
either way one entry is appended to `rag_history`. The pair
`(context, urls)` is the environment-supplied `rag_search` response. -/
def rag_retriever_node (s : SessState) (o : OracleOutcome String)
    (context : String) (urls : List String) : SessState :=
  match o with
  | .failed =>
    let fallback_query := s.product_name ++ " " ++ s.classified_question
    { s with rag_history :=
        s.rag_history ++ [⟨fallback_query, context, urls⟩] }
  | .ok search_query =>
    { s with rag_history := s.rag_history ++ [⟨search_query, context, urls⟩] }

/-- `quality_checker_node` (`agents/quality_checker.py`): `retrieval_attempts`
is incremented on every pass; oracle exhaustion counts as insufficient with a
fixed gap text. -/
def quality_checker_node (s : SessState)
    (o : OracleOutcome ContextSufficiencyAssessment) : SessState :=
  let new_retrieval_attempts := s.retrieval_attempts + 1
  match o with
  | .failed =>
    { s with
      is_context_sufficient := false
      retrieval_attempts := new_retrieval_attempts
      information_gap := "Unable to assess context quality due to LLM error" }
  | .ok assessment =>
    if assessment.is_sufficient then
      { s with
        is_context_sufficient := true
        retrieval_attempts := new_retrieval_attempts
        information_gap := "" }
    else
      { s with
        is_context_sufficient := false
        retrieval_attempts := new_retrieval_attempts
        information_gap := assessment.information_gap }

/-- `route_after_quality_checker` (`graph.py`). -/
def route_after_quality_checker (s : SessState) : Stage :=
  if s.is_context_sufficient then .answer_formulator
  else if s.retrieval_attempts ≥ MAX_RETRIEVAL_ATTEMPTS then .pdf_fallback
  else .rag_retriever

/-- The fixed apology used by `answer_formulator_node` when the oracle fails. -/
def apologyAnswer : String :=
  "I apologise, but I am currently unable to formulate a response. " ++
  "Please try again later or contact Dell support directly."

/-- `answer_formulator_node` (`agents/answer_formulator.py`). -/
def answer_formulator_node (s : SessState)
    (o : OracleOutcome FormulatedAnswer) : SessState :=
  match o with
  | .failed => { s with final_answer := apologyAnswer }
  | .ok formulated => { s with final_answer := formulated.answer }

/-- `present_answer_node` (`graph.py`): display-only, sets
`escalated_to_human = False`. -/
def present_answer_node (s : SessState) : SessState :=
  { s with escalated_to_human := false }

/-- `route_after_present_answer` (`graph.py`). -/
def route_after_present_answer (s : SessState) : Stage :=
  if s.clarification_used then .log_pre_feedback else .ask_for_clarification

/-- `ask_for_clarification_node` (`graph.py`); `raw` is the line read from the
user, which the code strips before the emptiness test. -/
def ask_for_clarification_node (s : SessState) (raw : String) : SessState :=
  let user_input := pyStrip raw
  if user_input = "" then
    { s with
      user_clarification := ""
      clarification_is_actionable := false
      clarification_used := true }
  else
    { s with user_clarification := user_input }

/-- `route_after_clarification` (`graph.py`): skip the assessor when
`user_clarification` is falsy. -/
def route_after_clarification (s : SessState) : Stage :=
  if s.user_clarification = "" then .log_pre_feedback else .clarification_assessor

/-- `clarification_assessor_node` (`agents/clarification_assessor.py`):
actionable clarifications set a fresh `information_gap` and reset
`retrieval_attempts` to 0. -/
def clarification_assessor_node (s : SessState)
    (o : OracleOutcome ClarificationAssessment) : SessState :=
  match o with
  | .failed =>
    { s with clarification_is_actionable := false, clarification_used := true }
  | .ok response =>
    if response.is_actionable then
      { s with
        clarification_is_actionable := true
        clarification_used := true
        information_gap := response.information_gap
        retrieval_attempts := 0 }
    else
      { s with clarification_is_actionable := false, clarification_used := true }

/-- `route_after_clarification_assessor` (`graph.py`). -/
def route_after_clarification_assessor (s : SessState) : Stage :=
  if s.clarification_is_actionable then .rag_retriever else .log_pre_feedback

/-- `pdf_fallback_node` (`agents/pdf_fallback.py`). `disk` models
`_find_pdf_on_disk` composed with the PDF store (§ document store boundary):
it resolves a URL to the page texts of the local document, or `none` when no
file exists. `toc` is the TOC-analysis oracle outcome (only consulted in the
large-document branch). -/
def pdf_fallback_node (s : SessState) (disk : String → Option (List String))
    (toc : OracleOutcome TOCAnalysis) : SessState :=
  match get_most_frequent_pdf_url s.rag_history with
  | none => { s with pdf_fallback_used := false }
  | some pdf_url =>
    match disk pdf_url with
    | none => { s with pdf_fallback_used := false }
    | some pdf =>
      let page_count := pdf.length
      if page_count ≤ PDF_TOC_PAGE_THRESHOLD then
        let extracted_text := extract_pages_text pdf (pageRange page_count)
        if isBlank extracted_text then
          { s with pdf_fallback_used := false }
        else
          { s with
            pdf_fallback_used := true
            final_answer := smallPdfAnswer pdf_url page_count extracted_text }
      else
        let first_pages_text :=
          extract_pages_text pdf (pageRange PDF_TOC_PAGE_THRESHOLD)
        if isBlank first_pages_text then
          { s with pdf_fallback_used := false }
        else
          match toc with
          | .failed => { s with pdf_fallback_used := false }
          | .ok toc_analysis =>
            if ¬ toc_analysis.has_toc then
              { s with pdf_fallback_used := false }
            else if toc_analysis.relevant_pages = [] then
              { s with pdf_fallback_used := false }
            else
              let extracted_text :=
                extract_pages_text pdf toc_analysis.relevant_pages
              if isBlank extracted_text then
                { s with pdf_fallback_used := false }
              else
                { s with
                  pdf_fallback_used := true
                  final_answer := largePdfAnswer pdf_url toc_analysis extracted_text }

/-- `route_after_pdf_fallback` (`graph.py`). -/
def route_after_pdf_fallback (s : SessState) : Stage :=
  if s.pdf_fallback_used then .present_fallback_answer else .escalate

/-- `present_fallback_answer_node` (`graph.py`). -/
def present_fallback_answer_node (s : SessState) : SessState :=
  { s with escalated_to_human := false }

/-- The fixed escalation notice of `escalate_node`. -/
def escalationNotice : String :=
  "We were unable to find a sufficient answer to your query after " ++
  "multiple attempts. Your case has been escalated to a human support " ++
  "agent who will be in touch shortly."

/-- `escalate_node` (`graph.py`). -/
def escalate_node (s : SessState) : SessState :=
  { s with escalated_to_human := true, final_answer := escalationNotice }

/-- `log_pre_feedback_node` (`graph.py`): writes an interim row with status
`"escalated"` or `"pending_feedback"` and all feedback fields false. -/
def log_pre_feedback_node (s : SessState) : SessState :=
  let status := if s.escalated_to_human then "escalated" else "pending_feedback"
  { s with logs := s.logs ++
      [{ chat_id := s.chat_id, product := s.product_name,
         question := s.classified_question, status := status,
         escalated := s.escalated_to_human,
         gatherer_attempts := s.gatherer_attempts,
         retrieval_attempts := s.retrieval_attempts,
         user_satisfied := false, feedback_uncertain := false,
         feedback_collected := false }] }

/-- `route_after_log_pre_feedback` (`graph.py`). -/
def route_after_log_pre_feedback (s : SessState) : Stage :=
  if s.escalated_to_human then .log_result else .collect_feedback

/-- `feedback_collector_node` (`agents/feedback_collector.py`): oracle
exhaustion and an uncertain classification both record
satisfied-but-uncertain; otherwise the classified satisfaction is recorded.
The raw user text (`_userText`) only feeds the oracle prompt. -/
def feedback_collector_node (s : SessState) (_userText : String)
    (o : OracleOutcome UserFeedback) : SessState :=
  match o with
  | .failed =>
    { s with
      user_satisfied := true
      feedback_collected := true
      feedback_uncertain := true }
  | .ok feedback =>
    if feedback.is_uncertain then
      { s with
        user_satisfied := true
        feedback_collected := true
        feedback_uncertain := true }
    else
      { s with
        user_satisfied := feedback.is_satisfied
        feedback_collected := true
        feedback_uncertain := false }

/-- Python `str(bool)` as written into the ticket description. -/
def pyBool (b : Bool) : String := if b then "True" else "False"

/-- The synthesized ticket description of `log_result_node`. -/
def ticketDescription (s : SessState) : String :=
  "Customer was not satisfied with the support provided. " ++
  "Product: " ++ s.product_name ++ ". Question: " ++ s.classified_question ++ ". " ++
  "Escalated: " ++ pyBool s.escalated_to_human ++ ". " ++
  "Gatherer attempts: " ++ toString s.gatherer_attempts ++ ". " ++
  "Retrieval attempts: " ++ toString s.retrieval_attempts ++ "."

/-- `log_result_node` (`graph.py`): writes the final outcome row
(status `"escalated"` / `"success"` / `"failure"`), and appends a ticket
whenever `user_satisfied` is false. -/
def log_result_node (s : SessState) : SessState :=
  let status :=
    if s.escalated_to_human then "escalated"
    else if s.user_satisfied then "success"
    else "failure"
  let row : LogRow :=
    { chat_id := s.chat_id, product := s.product_name,
      question := s.classified_question, status := status,
      escalated := s.escalated_to_human,
      gatherer_attempts := s.gatherer_attempts,
      retrieval_attempts := s.retrieval_attempts,
      user_satisfied := s.user_satisfied,
      feedback_uncertain := s.feedback_uncertain,
      feedback_collected := ¬ s.escalated_to_human }
  let s1 := { s with logs := s.logs ++ [row] }
  if ¬ s.user_satisfied then
    { s1 with tickets := s1.tickets ++
        [{ chat_id := s.chat_id, product := s.product_name,
           question := s.classified_question, answer_given := s.final_answer,
           escalated := s.escalated_to_human,
           description := ticketDescription s }] }
  else s1

/-! ## The control loop (`build_graph`) as a step function -/

/-- The per-stage environment input: the oracle outcome, user line, search
response or document store the stage consumes. -/
inductive Input where
  | gatherer (o : OracleOutcome InformationGathererResponse)
  | userDetails (line : String)
  | retriever (o : OracleOutcome String) (context : String) (urls : List String)
  | quality (o : OracleOutcome ContextSufficiencyAssessment)
  | formulator (o : OracleOutcome FormulatedAnswer)
  | clarifyInput (line : String)
  | clarifyAssess (o : OracleOutcome ClarificationAssessment)
  | pdfEnv (disk : String → Option (List String)) (toc : OracleOutcome TOCAnalysis)
  | feedback (line : String) (o : OracleOutcome UserFeedback)
  | tick

/-- One transition of the compiled graph: run the current node on the
state (consuming the matching input) and follow its (conditional) edge.
`none` means the supplied input does not match the stage, or the session
is already at `END`. -/
def step (st : Stage) (s : SessState) (i : Input) : Option (Stage × SessState) :=
  match st, i with
  | .information_gatherer, .gatherer o =>
    let s1 := information_gatherer_node s o
    some (route_after_gatherer s1, s1)
  | .ask_user_for_details, .userDetails _ =>
    some (.information_gatherer, s)
  | .rag_retriever, .retriever o context urls =>
    some (.quality_checker, rag_retriever_node s o context urls)
  | .quality_checker, .quality o =>
    let s1 := quality_checker_node s o
    some (route_after_quality_checker s1, s1)
  | .answer_formulator, .formulator o =>
    some (.present_answer, answer_formulator_node s o)
  | .present_answer, .tick =>
    let s1 := present_answer_node s
    some (route_after_present_answer s1, s1)
  | .ask_for_clarification, .clarifyInput line =>
    let s1 := ask_for_clarification_node s line
    some (route_after_clarification s1, s1)
  | .clarification_assessor, .clarifyAssess o =>
    let s1 := clarification_assessor_node s o
    some (route_after_clarification_assessor s1, s1)
  | .pdf_fallback, .pdfEnv disk toc =>
    let s1 := pdf_fallback_node s disk toc
    some (route_after_pdf_fallback s1, s1)
  | .present_fallback_answer, .tick =>
    some (.log_pre_feedback, present_fallback_answer_node s)
  | .escalate, .tick =>
    some (.log_pre_feedback, escalate_node s)
  | .log_pre_feedback, .tick =>
    let s1 := log_pre_feedback_node s
    some (route_after_log_pre_feedback s1, s1)
  | .collect_feedback, .feedback line o =>
    some (.log_result, feedback_collector_node s line o)
  | .log_result, .tick =>
    some (.done, log_result_node s)
  | _, _ => none

/-- Run the loop over a list of inputs; `none` if the loop got stuck on a
mismatched input. A session starts at `Stage.information_gatherer` with
`initState` (the edge `product_selector → information_gatherer`). -/
def run (st : Stage) (s : SessState) : List Input → Option (Stage × SessState)
  | [] => some (st, s)
  | i :: rest =>
    match step st s i with
    | none => none
    | some (st1, s1) => run st1 s1 rest

/-- The sequence of stages entered while consuming the inputs (the head is
the starting stage). -/
def visited (st : Stage) (s : SessState) : List Input → List Stage
  | [] => [st]
  | i :: rest =>
    match step st s i with
    | none => [st]
    | some (st1, s1) => st :: visited st1 s1 rest

/-- The gatherer oracle reporting insufficient information — by exhaustion
or by an explicit `has_enough_info = false` response. -/
def saysInsufficient : OracleOutcome InformationGathererResponse → Prop
  | .failed => True
  | .ok r => r.has_enough_info = false

/-- An input is benign for the final-answer invariant when any successful
formulator response carries a non-empty answer (the code copies the oracle
answer into `final_answer` verbatim). -/
def goodInput : Input → Prop
  | .formulator (.ok f) => f.answer ≠ ""
  | _ => True

/-! ## Reachability invariants of the control loop -/

/-- The inductive invariant of the compiled graph: attempt counters stay at
or below their ceilings (and are strictly below on (re-)entry to the loops
that increment them), feedback is only collected for non-escalated sessions,
and a ticket exists exactly for terminated sessions whose `user_satisfied`
is false. -/
def Inv (st : Stage) (s : SessState) : Prop :=
  s.gatherer_attempts ≤ MAX_GATHERER_ATTEMPTS ∧
  s.retrieval_attempts ≤ MAX_RETRIEVAL_ATTEMPTS ∧
  ((st = .information_gatherer ∨ st = .ask_user_for_details) →
    s.gatherer_attempts ≤ MAX_GATHERER_ATTEMPTS - 1) ∧
  ((st = .information_gatherer ∨ st = .ask_user_for_details) →
    s.retrieval_attempts = 0) ∧
  ((st = .rag_retriever ∨ st = .quality_checker) →
    s.retrieval_attempts ≤ MAX_RETRIEVAL_ATTEMPTS - 1) ∧
  (st = .collect_feedback → s.escalated_to_human = false) ∧
  (st ≠ .done → s.tickets = []) ∧
  (st = .done → (s.tickets ≠ [] ↔ s.user_satisfied = false))

/-- The stages at which an answer (grounded, fallback or escalation notice)
has already been stored in `final_answer`. -/
def answerStages : List Stage :=
  [.present_answer, .ask_for_clarification, .clarification_assessor,
   .present_fallback_answer, .log_pre_feedback, .collect_feedback,
   .log_result, .done]

/-- The final-answer invariant: once the loop is past an answer-producing
node, `final_answer` is non-empty. -/
def FAInv (st : Stage) (s : SessState) : Prop :=
  st ∈ answerStages → s.final_answer ≠ ""

/-! ## Concrete sessions used as witnesses and counterexamples -/

/-- Placeholder row for `List.getD`. -/
def defaultLogRow : LogRow :=
  { chat_id := "", product := "", question := "", status := "",
    escalated := false, gatherer_attempts := 0, retrieval_attempts := 0,
    user_satisfied := false, feedback_uncertain := false,
    feedback_collected := false }

/-- Placeholder ticket for `List.getD`. -/
def defaultTicket : Ticket :=
  { chat_id := "", product := "", question := "", answer_given := "",
    escalated := false, description := "" }

/-- A session that exhausts all three retrieval rounds with no PDF in its
history, escalates, and terminates. -/
def c1Inputs : List Input :=
  [.gatherer (.ok ⟨true, "", "clear", "battery drains quickly"⟩),
   .retriever (.ok "battery drain") "" [],
   .quality (.ok ⟨false, "battery documentation missing", "r"⟩),
   .retriever (.ok "battery life settings") "" [],
   .quality (.ok ⟨false, "still missing", "r"⟩),
   .retriever (.ok "power management") "" [],
   .quality (.ok ⟨false, "still missing", "r"⟩),
   .pdfEnv (fun _ => none) .failed,
   .tick, .tick, .tick]

/-- Result of running the escalation session `c1Inputs`. -/
def c1Out : Option (Stage × SessState) :=
  run .information_gatherer (initState "c1" "latitude-5440") c1Inputs

/-- Final state of the escalation session `c1Inputs`. -/
def c1Final : SessState := (c1Out.getD (.done, initState "" "")).2

/-- A full successful session: one gatherer retry, one retrieval round,
a grounded answer, an empty clarification, satisfied feedback. -/
def c2Inputs : List Input :=
  [.gatherer .failed,
   .userDetails "the screen flickers on battery",
   .gatherer (.ok ⟨true, "", "clear", "screen flicker on battery"⟩),
   .retriever (.ok "screen flicker") "panel self refresh doc" ["http://d/a.pdf"],
   .quality (.ok ⟨true, "", "r"⟩),
   .formulator (.ok ⟨"Disable panel self refresh.", "high", "doc 1"⟩),
   .tick,
   .clarifyInput "",
   .tick,
   .feedback "yes that helped" (.ok ⟨true, false⟩),
   .tick]

/-- Result of running `c2Inputs`. -/
def c2Out : Option (Stage × SessState) :=
  run .information_gatherer (initState "c2" "xps-13") c2Inputs

/-- Final state of the successful session `c2Inputs`. -/
def c2Final : SessState := (c2Out.getD (.done, initState "" "")).2

/-- A session whose gatherer oracle reports insufficient information on
every round. -/
def c3Inputs : List Input :=
  [.gatherer .failed,
   .userDetails "it just does not work",
   .gatherer (.ok ⟨false, "What error do you see?", "too vague", ""⟩),
   .userDetails "no error shown",
   .gatherer .failed]

/-- The stages entered while consuming `c3Inputs`. -/
def c3Visited : List Stage :=
  visited .information_gatherer (initState "c3" "inspiron-14") c3Inputs

/-- Oracle attempt sequence: two transient failures, then success. -/
def c4fRetry : Nat → AttemptResult Nat :=
  fun n => if n < 2 then .transient else .success 42

/-- Oracle attempt sequence: transient failure, then a non-transient error. -/
def c4fFatal : Nat → AttemptResult Nat :=
  fun n => if n = 0 then .transient else .fatal

/-- Oracle attempt sequence: transient failures only. -/
def c4fExhaust : Nat → AttemptResult Nat :=
  fun _ => .transient

/-- A retrieval history with a tie between two PDF locators (2 citations
each) and one non-PDF locator. -/
def c5Hist : List RagEntry :=
  [⟨"q1", "c1", ["http://a/m.pdf", "http://b/n.PDF"]⟩,
   ⟨"q2", "c2", ["http://b/n.PDF", "http://a/m.pdf", "http://c/page.html"]⟩]

/-- A three-page document whose middle page is whitespace-only. -/
def c6Pdf : List String := ["Reset steps: hold the power button.", " ", "More steps."]

/-- History citing one small PDF. -/
def c6Hist : List RagEntry := [⟨"q", "c", ["http://x/guide.pdf"]⟩]

/-- Session state entering the PDF fallback with `c6Hist`. -/
def c6State : SessState :=
  { initState "c6" "inspiron-15" with rag_history := c6Hist, retrieval_attempts := 3 }

/-- Document store resolving only the small guide. -/
def c6Disk : String → Option (List String) :=
  fun u => if u = "http://x/guide.pdf" then some c6Pdf else none

/-- A 30-page manual (every page non-blank). -/
def c7Pdf : List String := List.replicate 30 "manual text"

/-- A TOC-analysis oracle response listing 21 relevant pages — more than the
20-page cap the prompt asks for. -/
def c7Toc : TOCAnalysis :=
  { has_toc := true, relevant_pages := pageRange 21,
    most_relevant_section_title := "Troubleshooting", reasoning := "r" }

/-- History citing the 30-page manual. -/
def c7Hist : List RagEntry := [⟨"q", "c", ["http://x/manual.pdf"]⟩]

/-- Session state entering the PDF fallback with `c7Hist`. -/
def c7State : SessState :=
  { initState "c7" "precision-7780" with rag_history := c7Hist, retrieval_attempts := 3 }

/-- Document store resolving only the manual. -/
def c7Disk : String → Option (List String) :=
  fun u => if u = "http://x/manual.pdf" then some c7Pdf else none

/-- A TOC-analysis response that obeys the 20-page prompt instruction:
one section spanning pages 15 through 22. -/
def c7wToc : TOCAnalysis :=
  { has_toc := true, relevant_pages := (List.range 8).map (fun i => (i : Int) + 15),
    most_relevant_section_title := "Battery", reasoning := "r" }

/-- A session whose formulator oracle succeeds but returns an empty answer
string. -/
def c8Inputs : List Input :=
  [.gatherer (.ok ⟨true, "", "clear", "no sound from speakers"⟩),
   .retriever (.ok "audio output") "audio driver doc" [],
   .quality (.ok ⟨true, "", "r"⟩),
   .formulator (.ok ⟨"", "low", "none"⟩),
   .tick,
   .clarifyInput "",
   .tick,
   .feedback "fine" (.ok ⟨true, false⟩),
   .tick]

/-- Result of running `c8Inputs`. -/
def c8Out : Option (Stage × SessState) :=
  run .information_gatherer (initState "c8" "alienware-m16") c8Inputs

/-- Final state of the empty-answer session `c8Inputs`. -/
def c8Final : SessState := (c8Out.getD (.done, initState "" "")).2

/-- The prefix of a session up to `collect_feedback` (grounded answer, empty
clarification). -/
def c9Pre : List Input :=
  [.gatherer (.ok ⟨true, "", "clear", "fan noise"⟩),
   .retriever (.ok "fan noise") "thermal doc" [],
   .quality (.ok ⟨true, "", "r"⟩),
   .formulator (.ok ⟨"Update the thermal profile.", "high", "doc 1"⟩),
   .tick,
   .clarifyInput "",
   .tick]

/-- An uncertain feedback classification (`is_satisfied` false but
`is_uncertain` true). -/
def c9Feedback : UserFeedback := { is_satisfied := false, is_uncertain := true }

/-- Result of the session ending in uncertain feedback. -/
def c9Out : Option (Stage × SessState) :=
  run .information_gatherer (initState "c9" "optiplex-7010")
    (c9Pre ++ [.feedback "I guess it is okay" (.ok c9Feedback), .tick])

/-- Final state of the uncertain-feedback session. -/
def c9Final : SessState := (c9Out.getD (.done, initState "" "")).2

/-- A session whose formulator oracle fails on every retry: the apology
answer is presented non-escalated, then clarification and feedback run. -/
def c10Inputs : List Input :=
  [.gatherer (.ok ⟨true, "", "clear", "wifi drops"⟩),
   .retriever (.ok "wifi disconnect") "wifi doc" [],
   .quality (.ok ⟨true, "", "r"⟩),
   .formulator .failed,
   .tick,
   .clarifyInput "",
   .tick,
   .feedback "no that did not help" (.ok ⟨false, false⟩),
   .tick]

/-- Result of running `c10Inputs`. -/
def c10Out : Option (Stage × SessState) :=
  run .information_gatherer (initState "c10" "xps-15") c10Inputs

/-- Final state of the failed-formulator session `c10Inputs`. -/
def c10Final : SessState := (c10Out.getD (.done, initState "" "")).2

/-! # Theorems -/

/-! ## The oracle adapter (C4) -/

theorem retryFrom_ge {α : Type} (f : Nat → AttemptResult α) (n : Nat)
    (h : ¬ n < MAX_RETRIES) : retryFrom f n = (none, []) := by
  rw [retryFrom]
  simp [h]

theorem retryFrom_two_transient_then_success {α : Type}
    (f : Nat → AttemptResult α) (v : α) (h0 : f 0 = .transient)
    (h1 : f 1 = .transient) (h2 : f 2 = .success v) :
    retryFrom f 0 = (some v, [1, 2]) := by
  rw [retryFrom, retryFrom, retryFrom]
  simp [h0, h1, h2, MAX_RETRIES, RETRY_DELAYS]

theorem retryFrom_exhausted {α : Type} (f : Nat → AttemptResult α)
    (h0 : f 0 = .transient) (h1 : f 1 = .transient) (h2 : f 2 = .transient) :
    retryFrom f 0 = (none, [1, 2]) := by
  rw [retryFrom, retryFrom, retryFrom]
  simp [h0, h1, h2, MAX_RETRIES, RETRY_DELAYS]

theorem retryFrom_fatal {α : Type} (f : Nat → AttemptResult α) (i : Nat)
    (hi : i < MAX_RETRIES) (hpre : ∀ j, j < i → f j = .transient)
    (hf : f i = .fatal) : retryFrom f 0 = (none, RETRY_DELAYS.take i) := by
  simp only [MAX_RETRIES] at hi
  interval_cases i
  · rw [retryFrom]
    simp [hf, MAX_RETRIES, RETRY_DELAYS]
  · rw [retryFrom, retryFrom]
    simp [hpre 0 (by omega), hf, MAX_RETRIES, RETRY_DELAYS]
  · rw [retryFrom, retryFrom, retryFrom]
    simp [hpre 0 (by omega), hpre 1 (by omega), hf, MAX_RETRIES, RETRY_DELAYS]

/-- Claim C4: the shared oracle adapter. Given 2 transient failures then a
success, it returns the success value after sleeping 1s then 2s; given 3
consecutive transient failures, it returns no value (so every call site
takes its deterministic fallback branch) after sleeping 1s then 2s, and
never raises; given a non-transient error on any attempt (all earlier
attempts transient), it stops immediately with no further retries, again
yielding the fallback. -/
theorem claim_C4 {α : Type} (f : Nat → AttemptResult α) (v : α) :
    (f 0 = .transient → f 1 = .transient → f 2 = .success v →
      retryFrom f 0 = (some v, [1, 2]) ∧ oracleOf f = .ok v) ∧
    (f 0 = .transient → f 1 = .transient → f 2 = .transient →
      retryFrom f 0 = (none, [1, 2]) ∧ oracleOf f = .failed) ∧
    (∀ i, i < MAX_RETRIES → (∀ j, j < i → f j = .transient) → f i = .fatal →
      retryFrom f 0 = (none, RETRY_DELAYS.take i) ∧ oracleOf f = .failed) := by
  refine ⟨fun h0 h1 h2 => ?_, fun h0 h1 h2 => ?_, fun i hi hpre hf => ?_⟩
  · have h := retryFrom_two_transient_then_success f v h0 h1 h2
    exact ⟨h, by simp [oracleOf, h]⟩
  · have h := retryFrom_exhausted f h0 h1 h2
    exact ⟨h, by simp [oracleOf, h]⟩
  · have h := retryFrom_fatal f i hi hpre hf
    exact ⟨h, by simp [oracleOf, h]⟩

/-- Witness for C4 at the concrete attempt sequences `c4fRetry`,
`c4fExhaust` and `c4fFatal`. -/
theorem claim_C4_witness :
    retryFrom c4fRetry 0 = (some 42, [1, 2]) ∧
    retryFrom c4fExhaust 0 = (none, [1, 2]) ∧
    retryFrom c4fFatal 0 = (none, RETRY_DELAYS.take 1) :=
  ⟨((claim_C4 c4fRetry 42).1 rfl rfl rfl).1,
   ((claim_C4 c4fExhaust 42).2.1 rfl rfl rfl).1,
   ((claim_C4 c4fFatal 42).2.2 1 (by decide) (fun j hj => by
      interval_cases j; rfl) rfl).1⟩

/-! ## Generic facts about `run` and the graph invariant -/

theorem append_ne_empty_left (a b : String) (h : a ≠ "") : a ++ b ≠ "" := by
  intro hc
  apply h
  have hd := congrArg String.data hc
  simp at hd
  exact String.ext (by simp [hd.1])

theorem run_append (a b : List Input) : ∀ (st : Stage) (s : SessState),
    run st s (a ++ b) = (run st s a).bind (fun p => run p.1 p.2 b) := by
  induction a with
  | nil => intro st s; simp [run]
  | cons i a ih =>
    intro st s
    simp only [List.cons_append, run]
    rcases h : step st s i with _ | ⟨st1, s1⟩
    · simp
    · simp [ih]

theorem inv_init (c p : String) : Inv .information_gatherer (initState c p) := by
  simp [Inv, initState, MAX_GATHERER_ATTEMPTS, MAX_RETRIEVAL_ATTEMPTS]

theorem pdf_fallback_gatherer_attempts (s : SessState)
    (disk : String → Option (List String)) (toc : OracleOutcome TOCAnalysis) :
    (pdf_fallback_node s disk toc).gatherer_attempts = s.gatherer_attempts := by
  unfold pdf_fallback_node
  dsimp only
  repeat' split
  all_goals rfl

theorem pdf_fallback_retrieval_attempts (s : SessState)
    (disk : String → Option (List String)) (toc : OracleOutcome TOCAnalysis) :
    (pdf_fallback_node s disk toc).retrieval_attempts = s.retrieval_attempts := by
  unfold pdf_fallback_node
  dsimp only
  repeat' split
  all_goals rfl

theorem pdf_fallback_escalated (s : SessState)
    (disk : String → Option (List String)) (toc : OracleOutcome TOCAnalysis) :
    (pdf_fallback_node s disk toc).escalated_to_human = s.escalated_to_human := by
  unfold pdf_fallback_node
  dsimp only
  repeat' split
  all_goals rfl

theorem pdf_fallback_user_satisfied (s : SessState)
    (disk : String → Option (List String)) (toc : OracleOutcome TOCAnalysis) :
    (pdf_fallback_node s disk toc).user_satisfied = s.user_satisfied := by
  unfold pdf_fallback_node
  dsimp only
  repeat' split
  all_goals rfl

theorem pdf_fallback_tickets (s : SessState)
    (disk : String → Option (List String)) (toc : OracleOutcome TOCAnalysis) :
    (pdf_fallback_node s disk toc).tickets = s.tickets := by
  unfold pdf_fallback_node
  dsimp only
  repeat' split
  all_goals rfl

theorem pdf_fallback_logs (s : SessState)
    (disk : String → Option (List String)) (toc : OracleOutcome TOCAnalysis) :
    (pdf_fallback_node s disk toc).logs = s.logs := by
  unfold pdf_fallback_node
  dsimp only
  repeat' split
  all_goals rfl

theorem inv_step {st : Stage} {s : SessState} {i : Input} {st' : Stage}
    {s' : SessState} (hinv : Inv st s) (hs : step st s i = some (st', s')) :
    Inv st' s' := by
  obtain ⟨h1, h2, h3, h4, h5, h6, h7, h8⟩ := hinv
  cases st <;> cases i <;>
    simp only [step, Option.some.injEq, Prod.mk.injEq, reduceCtorEq] at hs
  all_goals obtain ⟨hst, hss⟩ := hs
  all_goals subst hst
  all_goals subst hss
  all_goals unfold Inv
  all_goals (try unfold route_after_gatherer)
  all_goals (try unfold route_after_quality_checker)
  all_goals (try unfold route_after_present_answer)
  all_goals (try unfold route_after_clarification)
  all_goals (try unfold route_after_clarification_assessor)
  all_goals (try unfold route_after_pdf_fallback)
  all_goals (try unfold route_after_log_pre_feedback)
  all_goals (try unfold information_gatherer_node)
  all_goals (try unfold rag_retriever_node)
  all_goals (try unfold quality_checker_node)
  all_goals (try unfold answer_formulator_node)
  all_goals (try unfold present_answer_node)
  all_goals (try unfold ask_for_clarification_node)
  all_goals (try unfold clarification_assessor_node)
  all_goals (try unfold present_fallback_answer_node)
  all_goals (try unfold escalate_node)
  all_goals (try unfold log_pre_feedback_node)
  all_goals (try unfold feedback_collector_node)
  all_goals (try unfold log_result_node)
  all_goals (repeat' split)
  all_goals (try simp_all [MAX_GATHERER_ATTEMPTS, MAX_RETRIEVAL_ATTEMPTS, apply_ite,
    pdf_fallback_gatherer_attempts, pdf_fallback_retrieval_attempts,
    pdf_fallback_escalated, pdf_fallback_user_satisfied, pdf_fallback_tickets,
    pdf_fallback_logs])
  all_goals omega

theorem inv_run (inputs : List Input) : ∀ (st : Stage) (s : SessState)
    (st' : Stage) (s' : SessState), Inv st s →
    run st s inputs = some (st', s') → Inv st' s' := by
  induction inputs with
  | nil =>
    intro st s st' s' hinv h
    simp only [run, Option.some.injEq, Prod.mk.injEq] at h
    obtain ⟨h1, h2⟩ := h
    subst h1
    subst h2
    exact hinv
  | cons i rest ih =>
    intro st s st' s' hinv h
    simp only [run] at h
    rcases hstep : step st s i with _ | ⟨st1, s1⟩ <;> rw [hstep] at h
    · simp at h
    · exact ih st1 s1 st' s' (inv_step hinv hstep) h

theorem smallPdfAnswer_ne_empty (u : String) (n : Nat) (t : String) :
    smallPdfAnswer u n t ≠ "" := by
  unfold smallPdfAnswer
  repeat' apply append_ne_empty_left
  decide

theorem largePdfAnswer_ne_empty (u : String) (ta : TOCAnalysis) (t : String) :
    largePdfAnswer u ta t ≠ "" := by
  unfold largePdfAnswer
  repeat' apply append_ne_empty_left
  decide

theorem apologyAnswer_ne_empty : apologyAnswer ≠ "" := by decide

theorem escalationNotice_ne_empty : escalationNotice ≠ "" := by decide

theorem pdf_fallback_used_final (s : SessState)
    (disk : String → Option (List String)) (toc : OracleOutcome TOCAnalysis)
    (h : (pdf_fallback_node s disk toc).pdf_fallback_used = true) :
    (pdf_fallback_node s disk toc).final_answer ≠ "" := by
  unfold pdf_fallback_node at *
  dsimp only at *
  repeat' split at h
  all_goals (repeat' split)
  all_goals simp_all [smallPdfAnswer_ne_empty, largePdfAnswer_ne_empty]

theorem fa_step {st : Stage} {s : SessState} {i : Input} {st' : Stage}
    {s' : SessState} (hfa : FAInv st s) (hgood : goodInput i)
    (hs : step st s i = some (st', s')) : FAInv st' s' := by
  cases st <;> cases i <;>
    simp only [step, Option.some.injEq, Prod.mk.injEq, reduceCtorEq] at hs
  all_goals obtain ⟨hst, hss⟩ := hs
  all_goals subst hst
  all_goals subst hss
  all_goals unfold FAInv answerStages at *
  all_goals (try unfold route_after_gatherer)
  all_goals (try unfold route_after_quality_checker)
  all_goals (try unfold route_after_present_answer)
  all_goals (try unfold route_after_clarification)
  all_goals (try unfold route_after_clarification_assessor)
  all_goals (try unfold route_after_pdf_fallback)
  all_goals (try unfold route_after_log_pre_feedback)
  all_goals (try unfold information_gatherer_node)
  all_goals (try unfold rag_retriever_node)
  all_goals (try unfold quality_checker_node)
  all_goals (try unfold answer_formulator_node)
  all_goals (try unfold present_answer_node)
  all_goals (try unfold ask_for_clarification_node)
  all_goals (try unfold clarification_assessor_node)
  all_goals (try unfold present_fallback_answer_node)
  all_goals (try unfold escalate_node)
  all_goals (try unfold log_pre_feedback_node)
  all_goals (try unfold feedback_collector_node)
  all_goals (try unfold log_result_node)
  all_goals (try unfold goodInput at hgood)
  all_goals (repeat' split)
  all_goals (try simp_all [apply_ite, apologyAnswer_ne_empty,
    escalationNotice_ne_empty, smallPdfAnswer_ne_empty, largePdfAnswer_ne_empty,
    pdf_fallback_used_final])

theorem fa_run (inputs : List Input) : ∀ (st : Stage) (s : SessState)
    (st' : Stage) (s' : SessState), (∀ i ∈ inputs, goodInput i) → FAInv st s →
    run st s inputs = some (st', s') → FAInv st' s' := by
  induction inputs with
  | nil =>
    intro st s st' s' _ hfa h
    simp only [run, Option.some.injEq, Prod.mk.injEq] at h
    obtain ⟨h1, h2⟩ := h
    subst h1
    subst h2
    exact hfa
  | cons i rest ih =>
    intro st s st' s' hgood hfa h
    simp only [run] at h
    rcases hstep : step st s i with _ | ⟨st1, s1⟩ <;> rw [hstep] at h
    · simp at h
    · exact ih st1 s1 st' s' (fun j hj => hgood j (by simp [hj]))
        (fa_step hfa (hgood i (by simp)) hstep) h

/-! ## Claims about the whole control loop -/

/-- Claim C2: over every session and every sequence of oracle outcomes (and
user inputs), `gatherer_attempts` never exceeds `MAX_GATHERER_ATTEMPTS = 3`
and `retrieval_attempts` never exceeds `MAX_RETRIEVAL_ATTEMPTS = 3`. Since
`inputs` ranges over all finite input sequences, every intermediate point of
every session is the final state of some run, so the bound holds at any
point — including after a clarification-triggered reset of
`retrieval_attempts` to 0. -/
theorem claim_C2 (c p : String) (inputs : List Input) (st' : Stage)
    (s' : SessState)
    (hrun : run .information_gatherer (initState c p) inputs = some (st', s')) :
    s'.gatherer_attempts ≤ MAX_GATHERER_ATTEMPTS ∧
    s'.retrieval_attempts ≤ MAX_RETRIEVAL_ATTEMPTS := by
  have h := inv_run inputs _ _ _ _ (inv_init c p) hrun
  exact ⟨h.1, h.2.1⟩

/-- Witness for C2: the bound holds at the end of the concrete session
`c2Inputs`. -/
theorem claim_C2_witness :
    c2Final.gatherer_attempts ≤ MAX_GATHERER_ATTEMPTS ∧
    c2Final.retrieval_attempts ≤ MAX_RETRIEVAL_ATTEMPTS :=
  claim_C2 "c2" "xps-13" c2Inputs .done c2Final (by rfl)

/-- Counterexample to C1 as stated: in the concrete session `c1Inputs` the
loop escalates (the outcome row has status `"escalated"`, and feedback is
skipped so `user_satisfied` keeps its default `false`), yet `log_result_node`
still writes a ticket — the code guards the ticket only by
`if not user_satisfied`, not by the escalation flag. -/
theorem claim_C1_counterexample :
    c1Out = some (.done, c1Final) ∧
    c1Final.escalated_to_human = true ∧
    (c1Final.logs.getD 1 defaultLogRow).status = "escalated" ∧
    c1Final.tickets.length = 1 ∧
    (c1Final.tickets.getD 0 defaultTicket).escalated = true := by
  refine ⟨?_, ?_, ?_, ?_, ?_⟩ <;> rfl

/-- Claim C1 as amended: at the end of any session, a ticket record exists
if and only if the session terminated with `user_satisfied = false` — which
includes every escalated session, since escalation skips feedback collection
and leaves `user_satisfied` at its default `false`. -/
theorem claim_C1_amended (c p : String) (inputs : List Input) (st' : Stage)
    (s' : SessState)
    (hrun : run .information_gatherer (initState c p) inputs = some (st', s')) :
    (s'.tickets ≠ [] ↔ (st' = .done ∧ s'.user_satisfied = false)) := by
  have h := inv_run inputs _ _ _ _ (inv_init c p) hrun
  by_cases hd : st' = .done
  · subst hd
    simpa using h.2.2.2.2.2.2.2 rfl
  · have ht := h.2.2.2.2.2.2.1 hd
    simp [ht, hd]

/-- Witness for the amended C1 at the concrete escalated session. -/
theorem claim_C1_amended_witness :
    c1Final.tickets ≠ [] ↔ (Stage.done = Stage.done ∧ c1Final.user_satisfied = false) :=
  claim_C1_amended "c1" "latitude-5440" c1Inputs .done c1Final (by rfl)

/-- Counterexample to C3 as stated: with the gatherer oracle reporting
insufficient information on every round (`c3Inputs`), `ask_user_for_details`
executes exactly 2 times — not 3 — before the loop proceeds to
`rag_retriever`: the node increments `gatherer_attempts` before
`route_after_gatherer` compares it with the ceiling. -/
theorem claim_C3_counterexample :
    c3Visited.count .ask_user_for_details = 2 ∧
    ¬ c3Visited.count .ask_user_for_details = 3 ∧
    c3Visited.getLastD .done = .rag_retriever := by
  refine ⟨by decide, by decide, by decide⟩

theorem gatherer_insufficient {s : SessState}
    {o : OracleOutcome InformationGathererResponse} (h : saysInsufficient o) :
    information_gatherer_node s o =
      { s with
        has_enough_info := false
        gatherer_attempts := s.gatherer_attempts + 1 } := by
  cases o with
  | failed => rfl
  | ok r =>
    simp only [saysInsufficient] at h
    simp [information_gatherer_node, h]

/-- Claim C3 as amended: in a session where the gatherer oracle always
reports insufficient information, `information_gatherer` runs 3 times and
`ask_user_for_details` executes exactly 2 times before the loop proceeds to
`rag_retriever`, with the classified question still at its partial
(initial) value and `gatherer_attempts = 3`. -/
theorem claim_C3_amended (c p : String)
    (o1 o2 o3 : OracleOutcome InformationGathererResponse) (u1 u2 : String)
    (h1 : saysInsufficient o1) (h2 : saysInsufficient o2)
    (h3 : saysInsufficient o3) :
    visited .information_gatherer (initState c p)
        [.gatherer o1, .userDetails u1, .gatherer o2, .userDetails u2,
         .gatherer o3] =
      [.information_gatherer, .ask_user_for_details, .information_gatherer,
       .ask_user_for_details, .information_gatherer, .rag_retriever] ∧
    run .information_gatherer (initState c p)
        [.gatherer o1, .userDetails u1, .gatherer o2, .userDetails u2,
         .gatherer o3] =
      some (.rag_retriever, { initState c p with gatherer_attempts := 3 }) := by
  simp [visited, run, step, gatherer_insufficient h1, gatherer_insufficient h2,
    gatherer_insufficient h3, route_after_gatherer, initState,
    MAX_GATHERER_ATTEMPTS]

/-- Witness for the amended C3 at the concrete inputs `c3Inputs`. -/
theorem claim_C3_amended_witness :
    visited .information_gatherer (initState "c3w" "inspiron-14")
        [.gatherer .failed, .userDetails "a", .gatherer .failed,
         .userDetails "b", .gatherer .failed] =
      [.information_gatherer, .ask_user_for_details, .information_gatherer,
       .ask_user_for_details, .information_gatherer, .rag_retriever] :=
  (claim_C3_amended "c3w" "inspiron-14" .failed .failed .failed "a" "b"
    trivial trivial trivial).1

/-- Counterexample to C8 as stated: in the concrete session `c8Inputs` the
formulator oracle succeeds but returns an empty answer string; the loop
reaches the terminal logging stage with `final_answer = ""`. -/
theorem claim_C8_counterexample :
    c8Out = some (.done, c8Final) ∧
    c8Final.final_answer = "" ∧
    (c8Final.logs.getLastD defaultLogRow).status = "success" := by
  refine ⟨?_, ?_, ?_⟩ <;> rfl

/-- Claim C8 as amended: `final_answer` is non-empty at the terminal logging
stage for every session in which every successful formulator-oracle response
carries a non-empty answer; the fallback-document answer, the escalation
notice and the formulator-failure apology are all unconditionally non-empty,
so only an oracle success with an empty answer string can break the
invariant. -/
theorem claim_C8_amended (c p : String) (inputs : List Input)
    (hgood : ∀ i ∈ inputs, goodInput i) (st' : Stage) (s' : SessState)
    (hrun : run .information_gatherer (initState c p) inputs = some (st', s'))
    (hterm : st' = .log_result ∨ st' = .done) : s'.final_answer ≠ "" := by
  have hfa0 : FAInv .information_gatherer (initState c p) := by
    intro hmem
    exact absurd hmem (by decide)
  have h := fa_run inputs _ _ _ _ hgood hfa0 hrun
  apply h
  rcases hterm with h' | h' <;> subst h' <;> simp [answerStages]

/-- Witness for the amended C8 at the concrete session `c2Inputs`. -/
theorem claim_C8_amended_witness : c2Final.final_answer ≠ "" :=
  claim_C8_amended "c2" "xps-13" c2Inputs
    (by intro i hi; fin_cases hi <;> simp [goodInput])
    .done c2Final (by rfl) (Or.inr rfl)

theorem step_feedback_inv {st : Stage} {s : SessState} {line : String}
    {o : OracleOutcome UserFeedback} {r : Stage × SessState}
    (h : step st s (.feedback line o) = some r) :
    st = .collect_feedback ∧ r = (.log_result, feedback_collector_node s line o) := by
  cases st <;> simp only [step, Option.some.injEq, reduceCtorEq] at h
  exact ⟨rfl, h.symm⟩

/-- Claim C9: whenever the feedback oracle classifies the closing input as
uncertain, the session terminates with `user_satisfied = true` and
`feedback_uncertain = true`, the final outcome row has status `"success"`,
and no ticket record is written. -/
theorem claim_C9 (c p : String) (pre : List Input) (line : String)
    (fb : UserFeedback) (hunc : fb.is_uncertain = true) (st' : Stage)
    (s' : SessState)
    (hrun : run .information_gatherer (initState c p)
      (pre ++ [.feedback line (.ok fb), .tick]) = some (st', s')) :
    st' = .done ∧ s'.user_satisfied = true ∧ s'.feedback_uncertain = true ∧
    (s'.logs.getLastD defaultLogRow).status = "success" ∧ s'.tickets = [] := by
  rw [run_append] at hrun
  rcases hmid : run .information_gatherer (initState c p) pre
    with _ | ⟨st1, s1⟩ <;> rw [hmid] at hrun
  · simp at hrun
  · have hinv := inv_run pre _ _ _ _ (inv_init c p) hmid
    simp only [Option.some_bind, run] at hrun
    rcases hstep : step st1 s1 (.feedback line (.ok fb))
      with _ | ⟨st2, s2⟩ <;> rw [hstep] at hrun
    · simp at hrun
    · obtain ⟨hst1, hr⟩ := step_feedback_inv hstep
      subst hst1
      injection hr with h21 h22
      subst h21
      subst h22
      have hesc : s1.escalated_to_human = false := hinv.2.2.2.2.2.1 rfl
      have htick : s1.tickets = [] := hinv.2.2.2.2.2.2.1 (by simp)
      have hfn : feedback_collector_node s1 line (.ok fb) =
          { s1 with
            user_satisfied := true
            feedback_collected := true
            feedback_uncertain := true } := by
        simp [feedback_collector_node, hunc]
      rw [hfn] at hrun
      simp only [run, step, Option.some.injEq, Prod.mk.injEq] at hrun
      obtain ⟨hst', hs'⟩ := hrun
      subst hst'
      subst hs'
      simp [log_result_node, hesc, htick]

/-- Witness for C9 at the concrete uncertain-feedback session. -/
theorem claim_C9_witness :
    Stage.done = Stage.done ∧ c9Final.user_satisfied = true ∧
    c9Final.feedback_uncertain = true ∧
    (c9Final.logs.getLastD defaultLogRow).status = "success" ∧
    c9Final.tickets = [] :=
  claim_C9 "c9" "optiplex-7010" c9Pre "I guess it is okay" c9Feedback rfl
    .done c9Final (by rfl)

/-- Claim C10: when the answer-formulator oracle fails (exhaustion or a
non-transient error), the node stores the fixed apology as `final_answer`;
the answer is then presented with `escalated_to_human = false` and the loop
proceeds through clarification and feedback collection rather than
escalating — the concrete session `c10Inputs` ends non-escalated at the
terminal stage having shown the user no grounded answer. -/
theorem claim_C10 :
    (∀ s : SessState, step .answer_formulator s (.formulator .failed) =
      some (.present_answer, { s with final_answer := apologyAnswer })) ∧
    visited .information_gatherer (initState "c10" "xps-15") c10Inputs =
      [.information_gatherer, .rag_retriever, .quality_checker,
       .answer_formulator, .present_answer, .ask_for_clarification,
       .log_pre_feedback, .collect_feedback, .log_result, .done] ∧
    c10Out = some (.done, c10Final) ∧
    c10Final.final_answer = apologyAnswer ∧
    c10Final.escalated_to_human = false ∧
    (c10Final.logs.getLastD defaultLogRow).status = "failure" := by
  refine ⟨fun _ => rfl, ?_, ?_, ?_, ?_, ?_⟩ <;> rfl

/-! ## The PDF fallback miner (C5, C6, C7) -/

theorem firstIdx_append_left (u : String) : ∀ l1 l2 : List String, u ∈ l1 →
    firstIdx (l1 ++ l2) u = firstIdx l1 u := by
  intro l1 l2 h
  induction l1 with
  | nil => cases h
  | cons x xs ih =>
    simp only [List.cons_append, firstIdx]
    by_cases hx : x = u
    · simp [hx]
    · have hu : u ∈ xs := by
        rcases List.mem_cons.mp h with h' | h'
        · exact absurd h'.symm hx
        · exact h'
      simp [hx, ih hu]

theorem firstIdx_lt_length (u : String) : ∀ l : List String, u ∈ l →
    firstIdx l u < l.length := by
  intro l h
  induction l with
  | nil => cases h
  | cons x xs ih =>
    simp only [firstIdx, List.length_cons]
    by_cases hx : x = u
    · simp [hx]
    · have hu : u ∈ xs := by
        rcases List.mem_cons.mp h with h' | h'
        · exact absurd h'.symm hx
        · exact h'
      simp only [hx, if_false]
      exact Nat.succ_lt_succ (ih hu)

theorem firstIdx_append_of_not_mem (u : String) : ∀ l1 l2 : List String,
    u ∉ l1 → firstIdx (l1 ++ l2) u = l1.length + firstIdx l2 u := by
  intro l1 l2 h
  induction l1 with
  | nil => simp
  | cons x xs ih =>
    have hx : ¬ x = u := fun hc => h (by simp [hc])
    have hu : u ∉ xs := fun hc => h (by simp [hc])
    have he := ih hu
    simp only [List.cons_append, firstIdx, hx, if_false, List.length_cons,
      List.append_eq] at *
    omega

theorem keysInOrder_append_singleton (l : List String) (x : String) :
    keysInOrder (l ++ [x]) =
      if x ∈ keysInOrder l then keysInOrder l else keysInOrder l ++ [x] := by
  unfold keysInOrder
  rw [List.foldl_append]
  rfl

/-- Structure of `Counter` key insertion order: the key list is empty iff the
counted list is, has the same members, and is sorted by first occurrence. -/
theorem keysInOrder_spec (l : List String) :
    (keysInOrder l = [] ↔ l = []) ∧
    (∀ u, u ∈ keysInOrder l ↔ u ∈ l) ∧
    List.Pairwise (fun a b => firstIdx l a ≤ firstIdx l b) (keysInOrder l) := by
  induction l using List.reverseRecOn with
  | nil => simp [keysInOrder]
  | append_singleton l x ih =>
    obtain ⟨_, ih2, ih3⟩ := ih
    rw [keysInOrder_append_singleton]
    by_cases hx : x ∈ keysInOrder l
    · rw [if_pos hx]
      have hxl : x ∈ l := (ih2 x).mp hx
      refine ⟨?_, ?_, ?_⟩
      · constructor
        · intro h
          rw [h] at hx
          cases hx
        · intro h
          exact absurd h (by simp)
      · intro u
        rw [ih2 u]
        constructor
        · intro h
          exact List.mem_append_left _ h
        · intro h
          rcases List.mem_append.mp h with h' | h'
          · exact h'
          · rw [List.mem_singleton.mp h']
            exact hxl
      · refine ih3.imp_of_mem ?_
        intro a b ha hb hab
        rw [firstIdx_append_left a l [x] ((ih2 a).mp ha),
          firstIdx_append_left b l [x] ((ih2 b).mp hb)]
        exact hab
    · rw [if_neg hx]
      have hxl : x ∉ l := fun hc => hx ((ih2 x).mpr hc)
      refine ⟨?_, ?_, ?_⟩
      · constructor
        · intro h
          exact absurd h (by simp)
        · intro h
          exact absurd h (by simp)
      · intro u
        constructor
        · intro h
          rcases List.mem_append.mp h with h' | h'
          · exact List.mem_append_left _ ((ih2 u).mp h')
          · exact List.mem_append_right _ h'
        · intro h
          rcases List.mem_append.mp h with h' | h'
          · exact List.mem_append_left _ ((ih2 u).mpr h')
          · exact List.mem_append_right _ h'
      · rw [List.pairwise_append]
        refine ⟨?_, by simp, ?_⟩
        · refine ih3.imp_of_mem ?_
          intro a b ha hb hab
          rw [firstIdx_append_left a l [x] ((ih2 a).mp ha),
            firstIdx_append_left b l [x] ((ih2 b).mp hb)]
          exact hab
        · intro a ha b hb
          rw [List.mem_singleton.mp hb]
          have hal : a ∈ l := (ih2 a).mp ha
          rw [firstIdx_append_left a l [x] hal,
            firstIdx_append_of_not_mem x l [x] hxl]
          have h1 := firstIdx_lt_length a l hal
          simp only [firstIdx, if_pos rfl]
          omega

/-- The selection invariant of the stable max fold: it returns a member (or
the seed), with maximal count, strictly improving on the seed unless equal
to it, and earliest-first-seen among equal counts. -/
theorem pickMostCommon_spec (cnt idx : String → Nat) :
    ∀ (ks : List String) (best : String),
    (∀ u ∈ ks, idx best ≤ idx u) →
    List.Pairwise (fun a b => idx a ≤ idx b) ks →
    (pickMostCommon cnt best ks = best ∨ pickMostCommon cnt best ks ∈ ks) ∧
    cnt best ≤ cnt (pickMostCommon cnt best ks) ∧
    (cnt (pickMostCommon cnt best ks) = cnt best →
      pickMostCommon cnt best ks = best) ∧
    (∀ u ∈ ks, cnt u ≤ cnt (pickMostCommon cnt best ks)) ∧
    (∀ u ∈ ks, cnt u = cnt (pickMostCommon cnt best ks) →
      idx (pickMostCommon cnt best ks) ≤ idx u) ∧
    idx best ≤ idx (pickMostCommon cnt best ks) := by
  intro ks
  induction ks with
  | nil =>
    intro best _ _
    simp [pickMostCommon]
  | cons u ks ih =>
    intro best hord hpw
    obtain ⟨hpw1, hpw2⟩ := List.pairwise_cons.mp hpw
    rw [pickMostCommon]
    by_cases hc : cnt u > cnt best
    · rw [if_pos hc]
      obtain ⟨H1, H2, H3, H4, H5, H6⟩ := ih u hpw1 hpw2
      refine ⟨?_, by omega, ?_, ?_, ?_, ?_⟩
      · rcases H1 with h | h
        · exact Or.inr (by simp [h])
        · exact Or.inr (by simp [h])
      · intro h
        exfalso
        omega
      · intro v hv
        rcases List.mem_cons.mp hv with rfl | hv'
        · exact H2
        · exact H4 v hv'
      · intro v hv hveq
        rcases List.mem_cons.mp hv with rfl | hv'
        · rw [H3 hveq.symm]
        · exact H5 v hv' hveq
      · calc idx best ≤ idx u := hord u (by simp)
          _ ≤ idx (pickMostCommon cnt u ks) := H6
    · rw [if_neg hc]
      have hord' : ∀ v ∈ ks, idx best ≤ idx v := fun v hv => hord v (by simp [hv])
      obtain ⟨H1, H2, H3, H4, H5, H6⟩ := ih best hord' hpw2
      refine ⟨?_, H2, H3, ?_, ?_, H6⟩
      · rcases H1 with h | h
        · exact Or.inl h
        · exact Or.inr (by simp [h])
      · intro v hv
        rcases List.mem_cons.mp hv with rfl | hv'
        · omega
        · exact H4 v hv'
      · intro v hv hveq
        rcases List.mem_cons.mp hv with rfl | hv'
        · have hr : pickMostCommon cnt best ks = best := H3 (by omega)
          rw [hr]
          exact hord v (by simp)
        · exact H5 v hv' hveq

/-- Claim C5: the document-fallback miner counts only locators whose
lowercased form ends in `".pdf"`, across all retrieval-history entries;
it returns `none` iff the history contains no PDF locator, and otherwise a
PDF locator of maximal occurrence count whose first occurrence is earliest
(in history order) among all locators tying for the maximal count. -/
theorem claim_C5 (h : List RagEntry) :
    (get_most_frequent_pdf_url h = none ↔ pdfUrls h = []) ∧
    (∀ u, get_most_frequent_pdf_url h = some u →
      u ∈ pdfUrls h ∧ strEndsWith (pyLower u) ".pdf" = true ∧
      (∀ v ∈ pdfUrls h, countOcc (pdfUrls h) v ≤ countOcc (pdfUrls h) u) ∧
      (∀ v ∈ pdfUrls h, countOcc (pdfUrls h) v = countOcc (pdfUrls h) u →
        firstIdx (pdfUrls h) u ≤ firstIdx (pdfUrls h) v)) := by
  obtain ⟨hnil, hmem, hpw⟩ := keysInOrder_spec (pdfUrls h)
  constructor
  · unfold get_most_frequent_pdf_url
    dsimp only
    rcases hk : keysInOrder (pdfUrls h) with _ | ⟨k, ks⟩
    · simp [hnil.mp hk]
    · simp only [reduceCtorEq, false_iff]
      intro hc
      rw [hc] at hk
      simp [keysInOrder] at hk
  · intro u hu
    unfold get_most_frequent_pdf_url at hu
    dsimp only at hu
    rcases hk : keysInOrder (pdfUrls h) with _ | ⟨k, ks⟩ <;> rw [hk] at hu
    · simp at hu
    · simp only [Option.some.injEq] at hu
      rw [hk] at hpw
      obtain ⟨hpw1, hpw2⟩ := List.pairwise_cons.mp hpw
      obtain ⟨H1, H2, H3, H4, H5, H6⟩ :=
        pickMostCommon_spec (countOcc (pdfUrls h)) (firstIdx (pdfUrls h))
          ks k hpw1 hpw2
      subst hu
      have hmemu : pickMostCommon (countOcc (pdfUrls h)) k ks ∈ pdfUrls h := by
        apply (hmem _).mp
        rw [hk]
        rcases H1 with h' | h'
        · simp [h']
        · simp [h']
      refine ⟨hmemu, ?_, ?_, ?_⟩
      · have := List.mem_filter.mp hmemu
        exact this.2
      · intro v hv
        have hvk : v ∈ keysInOrder (pdfUrls h) := (hmem v).mpr hv
        rw [hk] at hvk
        rcases List.mem_cons.mp hvk with rfl | hv'
        · exact H2
        · exact H4 v hv'
      · intro v hv hveq
        have hvk : v ∈ keysInOrder (pdfUrls h) := (hmem v).mpr hv
        rw [hk] at hvk
        rcases List.mem_cons.mp hvk with rfl | hv'
        · rw [H3 hveq.symm]
        · exact H5 v hv' hveq

/-- Witness for C5 at the concrete tied history `c5Hist`: both PDF locators
occur twice, the HTML locator is ignored, and the first-seen PDF wins. -/
theorem claim_C5_witness :
    get_most_frequent_pdf_url c5Hist = some "http://a/m.pdf" ∧
    "http://a/m.pdf" ∈ pdfUrls c5Hist ∧
    countOcc (pdfUrls c5Hist) "http://b/n.PDF" =
      countOcc (pdfUrls c5Hist) "http://a/m.pdf" ∧
    firstIdx (pdfUrls c5Hist) "http://a/m.pdf" ≤
      firstIdx (pdfUrls c5Hist) "http://b/n.PDF" := by
  have H := (claim_C5 c5Hist).2 "http://a/m.pdf" (by rfl)
  refine ⟨by rfl, H.1, by rfl, ?_⟩
  exact H.2.2.2 "http://b/n.PDF" (by decide) (by rfl)

theorem length_filterMap_eq_length_filter {α β : Type} (f : α → Option β)
    (p : α → Bool) (h : ∀ a, (f a).isSome = p a) :
    ∀ l : List α, (l.filterMap f).length = (l.filter p).length := by
  intro l
  induction l with
  | nil => rfl
  | cons a l ih =>
    simp only [List.filterMap_cons, List.filter_cons]
    rcases hf : f a with _ | b
    · have hp : p a = false := by rw [← h]; simp [hf]
      simp [hp, ih]
    · have hp : p a = true := by rw [← h]; simp [hf]
      simp [hp, ih]

theorem extractParts_length (pdf : List String) (ps : List Int) :
    (extractParts pdf ps).length = (extractedPages pdf ps).length := by
  unfold extractParts extractedPages
  apply length_filterMap_eq_length_filter
  intro a
  by_cases h1 : 0 ≤ a - 1 ∧ a - 1 < (pdf.length : Int)
  · rw [if_pos h1]
    cases hb : isBlank (pageTextAt pdf a) <;> simp [hb, h1]
  · rw [if_neg h1]
    simp
    intro ha hb
    exact absurd ⟨by omega, by omega⟩ h1

/-- Claim C6: when the resolved fallback document has at most
`PDF_TOC_PAGE_THRESHOLD = 10` pages, the miner extracts the text of all
pages `1..page_count`; if that text is non-blank it is returned as the
fallback answer annotated with the source locator and the all-pages range,
and the loop routes to presenting it; if the extraction is blank
(whitespace-only), the fallback reports failure and the loop routes to
escalation even though the document was located. -/
theorem claim_C6 (s : SessState) (disk : String → Option (List String))
    (toc : OracleOutcome TOCAnalysis) (url : String) (pdf : List String)
    (hurl : get_most_frequent_pdf_url s.rag_history = some url)
    (hdisk : disk url = some pdf)
    (hsmall : pdf.length ≤ PDF_TOC_PAGE_THRESHOLD) :
    (isBlank (extract_pages_text pdf (pageRange pdf.length)) = false →
      pdf_fallback_node s disk toc =
        { s with
          pdf_fallback_used := true
          final_answer := smallPdfAnswer url pdf.length
            (extract_pages_text pdf (pageRange pdf.length)) } ∧
      route_after_pdf_fallback (pdf_fallback_node s disk toc) =
        .present_fallback_answer) ∧
    (isBlank (extract_pages_text pdf (pageRange pdf.length)) = true →
      pdf_fallback_node s disk toc = { s with pdf_fallback_used := false } ∧
      route_after_pdf_fallback (pdf_fallback_node s disk toc) = .escalate) := by
  have hnode : pdf_fallback_node s disk toc =
      (if isBlank (extract_pages_text pdf (pageRange pdf.length)) then
        { s with pdf_fallback_used := false }
      else
        { s with
          pdf_fallback_used := true
          final_answer := smallPdfAnswer url pdf.length
            (extract_pages_text pdf (pageRange pdf.length)) }) := by
    unfold pdf_fallback_node
    simp only [hurl, hdisk]
    simp [hsmall]
  constructor
  · intro hb
    rw [hnode, if_neg (by simp [hb])]
    exact ⟨rfl, rfl⟩
  · intro hb
    rw [hnode, if_pos (by simp [hb])]
    exact ⟨rfl, rfl⟩

/-- Witness for C6 at the concrete 3-page document `c6Pdf` (whose middle
page is whitespace-only and is skipped by the extractor). -/
theorem claim_C6_witness :
    pdf_fallback_node c6State c6Disk .failed =
      { c6State with
        pdf_fallback_used := true
        final_answer := smallPdfAnswer "http://x/guide.pdf" c6Pdf.length
          (extract_pages_text c6Pdf (pageRange c6Pdf.length)) } ∧
    route_after_pdf_fallback (pdf_fallback_node c6State c6Disk .failed) =
      .present_fallback_answer :=
  (claim_C6 c6State c6Disk .failed "http://x/guide.pdf" c6Pdf (by rfl) (by rfl)
    (by decide)).1 (by rfl)

/-- Counterexample to C7 as stated: with the TOC oracle responding with 21
relevant pages (`c7Toc`) on the 30-page manual `c7Pdf`, the miner extracts
and returns all 21 pages — the 20-page cap exists only as an instruction in
the oracle prompt and is not enforced by the code. -/
theorem claim_C7_counterexample :
    pdf_fallback_node c7State c7Disk (.ok c7Toc) =
      { c7State with
        pdf_fallback_used := true
        final_answer := largePdfAnswer "http://x/manual.pdf" c7Toc
          (extract_pages_text c7Pdf c7Toc.relevant_pages) } ∧
    (extractedPages c7Pdf c7Toc.relevant_pages).length = 21 ∧
    ¬ (extractedPages c7Pdf c7Toc.relevant_pages).length ≤ 20 := by
  refine ⟨by rfl, by rfl, by decide⟩

/-- Claim C7 as amended: in the large-document branch with a table of
contents detected, the miner extracts exactly the in-range non-blank pages
among those the oracle lists; the extracted subset therefore covers at most
20 pages whenever the oracle's `relevant_pages` list has at most 20 entries
(the cap the prompt instructs), but is not clipped by the code itself. -/
theorem claim_C7_amended (s : SessState) (disk : String → Option (List String))
    (ta : TOCAnalysis) (url : String) (pdf : List String)
    (hurl : get_most_frequent_pdf_url s.rag_history = some url)
    (hdisk : disk url = some pdf)
    (hlarge : PDF_TOC_PAGE_THRESHOLD < pdf.length)
    (hfirst : isBlank
      (extract_pages_text pdf (pageRange PDF_TOC_PAGE_THRESHOLD)) = false)
    (htoc : ta.has_toc = true)
    (hne : ta.relevant_pages ≠ [])
    (hblank : isBlank (extract_pages_text pdf ta.relevant_pages) = false)
    (hcap : ta.relevant_pages.length ≤ 20) :
    pdf_fallback_node s disk (.ok ta) =
      { s with
        pdf_fallback_used := true
        final_answer := largePdfAnswer url ta
          (extract_pages_text pdf ta.relevant_pages) } ∧
    (extractParts pdf ta.relevant_pages).length =
      (extractedPages pdf ta.relevant_pages).length ∧
    (extractedPages pdf ta.relevant_pages).length ≤ 20 := by
  refine ⟨?_, extractParts_length pdf ta.relevant_pages, ?_⟩
  · unfold pdf_fallback_node
    simp only [hurl, hdisk]
    have hn : ¬ pdf.length ≤ PDF_TOC_PAGE_THRESHOLD := by omega
    simp [hn, hfirst, htoc, hne, hblank]
  · calc (extractedPages pdf ta.relevant_pages).length
        ≤ ta.relevant_pages.length := List.length_filter_le _ _
      _ ≤ 20 := hcap

/-- Witness for the amended C7: the oracle response `c7wToc` lists the 8
pages 15–22 of the 30-page manual; the extracted subset covers those 8
pages, within the 20-page cap. -/
theorem claim_C7_amended_witness :
    pdf_fallback_node c7State c7Disk (.ok c7wToc) =
      { c7State with
        pdf_fallback_used := true
        final_answer := largePdfAnswer "http://x/manual.pdf" c7wToc
          (extract_pages_text c7Pdf c7wToc.relevant_pages) } ∧
    (extractParts c7Pdf c7wToc.relevant_pages).length =
      (extractedPages c7Pdf c7wToc.relevant_pages).length ∧
    (extractedPages c7Pdf c7wToc.relevant_pages).length ≤ 20 :=
  claim_C7_amended c7State c7Disk c7wToc "http://x/manual.pdf" c7Pdf
    (by rfl) (by rfl) (by decide) (by rfl) (by rfl) (by decide) (by rfl)
    (by decide)

end DellAssistant
